import Mathlib

/-!
Shallow embedding of the TgFunnel outreach engine.

The persistent store (PostgreSQL via SQLAlchemy in the source) is modelled as
an explicit state value `DB`: a list of user rows, a list of scheduled-message
rows in physical/result-set order, and a surrogate-key counter for the
`sent_messages_id` primary key.  `datetime`/`timedelta` values are modelled as
integers (seconds).  Each repository method from `data/methods/users.py` and
`data/methods/sent_messages.py` becomes a pure function from `DB` to a result
paired with the successor `DB`; the happy path (no `SQLAlchemyError`) is
modelled, which is the path every claim below is about.
-/

/-- A row of the `users` table (`data/models/models.py`, class `User`):
user_id (BigInteger PK), created_at, status (String, default 'alive'),
status_updated_at (refreshed by the column-level `onupdate=datetime.utcnow`
hook whenever an UPDATE touches the row). -/
structure UserRow where
  user_id : Int
  created_at : Int
  status : String
  status_updated_at : Int
deriving DecidableEq

/-- A row of the `sent_messages` table (`data/models/models.py`, class
`SentMessage`): surrogate key, sequence index, owning user, text, scheduled
send time, availability flag, sent flag. -/
structure SentMessageRow where
  sent_messages_id : Int
  index : Int
  user_id : Int
  message_text : String
  sent_at : Int
  is_available_sent : Bool
  is_sent : Bool
deriving DecidableEq

/-- The persistent store: both tables, plus the counter the database uses to
assign the `sent_messages_id` surrogate primary key on insert.  The order of
`messages` models the physical/result-set order of the rows, which is the
order an ORDER-BY-with-ties query enumerates them in. -/
structure DB where
  users : List UserRow
  messages : List SentMessageRow
  nextId : Int
deriving DecidableEq

/-- The pydantic `UserSchema` (`app/schemas/users.py`).  All fields have
defaults except `user_id`; `update_user` only ever reads `user_id` and
`status` out of it (the two timestamp keys are explicitly skipped there). -/
structure UserSchema where
  user_id : Int
  created_at : Int
  status : String
  status_updated_at : Int
deriving DecidableEq

/-- The pydantic `SentMessageSchema` (`app/schemas/sent_messages.py`).
`sent_messages_id`, `index` and `user_id` are annotated with plain types and
carry no default, so pydantic treats them as required; `sent_at` has
`default_factory=datetime.utcnow`; the remaining `Optional[...]` fields are
modelled with `Option` (value `none` standing for Python `None`). -/
structure SentMessageSchema where
  sent_messages_id : Int
  index : Int
  user_id : Int
  message_text : Option String
  sent_at : Int
  is_available_sent : Option Bool
  is_sent : Option Bool
deriving DecidableEq

/-- Pydantic construction of a `SentMessageSchema` from keyword arguments
(`none` = argument not supplied).  Fields whose annotation is a plain type and
which have no default (`sent_messages_id: int`, `index: int`, `user_id: int`)
are required in every pydantic version, so omitting any of them raises a
`ValidationError`, modelled as `Except.error`.  `Optional[...]` fields without
an explicit value fall back to `None` (and `sent_at` to its
`default_factory`, the construction-time clock `now`); under pydantic v2 even
those are required, so modelling them as defaulted is the lenient reading —
construction fails a fortiori. -/
def mkSentMessageSchema (sent_messages_id index user_id : Option Int)
    (message_text : Option (Option String)) (sent_at : Option Int)
    (is_available_sent is_sent : Option (Option Bool)) (now : Int) :
    Except String SentMessageSchema :=
  match sent_messages_id, index, user_id with
  | some sid, some i, some u =>
      Except.ok { sent_messages_id := sid, index := i, user_id := u,
                  message_text := message_text.getD none,
                  sent_at := sent_at.getD now,
                  is_available_sent := is_available_sent.getD none,
                  is_sent := is_sent.getD none }
  | _, _, _ => Except.error "ValidationError: field required"

/-- Modelled from the spec: the file `app/schemas/status.py` (enum `Status`)
is not among the sources; the spec's contact status domain is
{alive, dead, finished} and the ORM default is the string 'alive'
(`data/models/models.py`), so `Status.x.value` is modelled as the string "x". -/
def Status.alive : String := "alive"

/-- Modelled from the spec: see `Status.alive`. -/
def Status.dead : String := "dead"

/-- Modelled from the spec: see `Status.alive`. -/
def Status.finished : String := "finished"

/-- The fixed three-step campaign configuration: one entry of `MESSAGES` in
`config.py` (`index`, `delay` as seconds, `text`). -/
structure MessageConfig where
  index : Int
  delay : Int
  text : String
deriving DecidableEq

/-- `MESSAGES` from `config.py`: delays `timedelta(seconds=6/8/12)` modelled
as the integers 6, 8, 12. -/
def MESSAGES : List MessageConfig :=
  [⟨1, 6, "Текст1"⟩, ⟨2, 8, "Текст2"⟩, ⟨3, 12, "Текст3"⟩]

/-- `TRIGGER_WORDS` from `config.py`. -/
def TRIGGER_WORDS : List String := ["прекрасно", "ожидать"]

/-- Does the character list `l` start with the character list `pat`? -/
def charsStartWith : List Char → List Char → Bool
  | _, [] => true
  | [], _ :: _ => false
  | a :: as, b :: bs => a == b && charsStartWith as bs

/-- Does the character list `l` contain `pat` as a contiguous sublist? -/
def charsContain : List Char → List Char → Bool
  | [], pat => pat.isEmpty
  | a :: as, pat => charsStartWith (a :: as) pat || charsContain as pat

/-- Python's substring test `needle in haystack`, used by the trigger matcher
in `handle_trigger_for_user` (`app/main.py`). -/
def strContainsSub (haystack needle : String) : Bool :=
  charsContain haystack.toList needle.toList

/-- First element of a list satisfying `p`, i.e. the `scalars().first()` of a
filtered SELECT. -/
def findFirst (p : α → Bool) : List α → Option α
  | [] => none
  | x :: xs => if p x then some x else findFirst p xs

/-- Replace the first element satisfying `p` by its image under `f`: the
SQLAlchemy pattern "select …; mutate the first result; commit". -/
def updateFirst (p : α → Bool) (f : α → α) : List α → List α
  | [] => []
  | x :: xs => if p x then f x :: xs else x :: updateFirst p f xs

namespace UserRepository

/-- `UserRepository.get_all_alive` (`data/methods/users.py`):
`select(User).where(User.status == "alive")`. -/
def get_all_alive (db : DB) : List UserRow :=
  db.users.filter (fun u => u.status == "alive")

/-- `UserRepository.get_by_user_id` (`data/methods/users.py`):
`select(User).where(User.user_id == user_id)` then `scalars().first()`. -/
def get_by_user_id (db : DB) (uid : Int) : Option UserRow :=
  findFirst (fun u => u.user_id == uid) db.users

/-- `UserRepository.add_user` (`data/methods/users.py`) as called with
`UserSchema(user_id=uid)`: `dict(exclude_unset=True)` supplies only the id,
the ORM column defaults fill `created_at = now`, `status = 'alive'`,
`status_updated_at = now`.  A duplicate primary key makes the commit raise
`SQLAlchemyError`, which the method catches, returning `None` with nothing
inserted. -/
def add_user (db : DB) (uid : Int) (now : Int) : Option UserRow × DB :=
  if db.users.any (fun u => u.user_id == uid) then (none, db)
  else
    let u : UserRow := { user_id := uid, created_at := now,
                         status := "alive", status_updated_at := now }
    (some u, { db with users := db.users ++ [u] })

/-- `UserRepository.update_user` (`data/methods/users.py`): select the first
user with the schema's `user_id`; if none, return `None` with the store
unchanged.  If found, the setattr loop writes every schema key except
`created_at` and `status_updated_at` — i.e. `user_id` (to its own value,
since the row was matched on it) and `status`.  At commit, the ORM's unit of
work emits an UPDATE only when some assigned attribute differs from its
stored value, so only when the payload's status differs from the stored
status; only then does the column-level `onupdate=datetime.utcnow` hook fire
and refresh `status_updated_at` to the commit time `now`.  A payload
carrying the already-stored status emits no UPDATE and leaves the row
untouched.  Returns the stored row. -/
def update_user (db : DB) (s : UserSchema) (now : Int) : Option UserRow × DB :=
  match findFirst (fun u => u.user_id == s.user_id) db.users with
  | some u0 =>
      if u0.status == s.status then (some u0, db)
      else
        let users' := updateFirst (fun u => u.user_id == s.user_id)
          (fun u => { u with user_id := s.user_id, status := s.status,
                             status_updated_at := now }) db.users
        (findFirst (fun u => u.user_id == s.user_id) users',
         { db with users := users' })
  | none => (none, db)

end UserRepository

/-- The WHERE clause of `SentMessageRepository.fetch_pending`
(`data/methods/sent_messages.py`): owned by `uid`, due (`sent_at <= now`),
available, and not yet sent. -/
def pendingFor (uid now : Int) (m : SentMessageRow) : Bool :=
  m.user_id == uid && decide (m.sent_at ≤ now)
    && m.is_available_sent && !m.is_sent

/-- Head of a stable sort by `sent_at`: the first element (in stored order)
attaining the minimal `sent_at`.  This models
`.order_by(SentMessage.sent_at).limit(1)` followed by `scalars().first()`:
the query orders by `sent_at` alone, so rows tied on `sent_at` come back in
the store's row order. -/
def pickMinSentAt : List SentMessageRow → Option SentMessageRow
  | [] => none
  | m :: ms =>
      match pickMinSentAt ms with
      | none => some m
      | some m' => if m.sent_at ≤ m'.sent_at then some m else some m'

namespace SentMessageRepository

/-- `SentMessageRepository.add_message` (`data/methods/sent_messages.py`),
with the arguments of the `SentMessage(...)` constructor call; the database
assigns the surrogate `sent_messages_id` from its counter. -/
def add_message (db : DB) (user_id : Int) (message_text : String)
    (index : Int) (sent_at : Int) (is_available_sent is_sent : Bool) :
    Bool × DB :=
  (true,
   { db with
      messages := db.messages ++
        [{ sent_messages_id := db.nextId, index := index, user_id := user_id,
           message_text := message_text, sent_at := sent_at,
           is_available_sent := is_available_sent, is_sent := is_sent }],
      nextId := db.nextId + 1 })

/-- `SentMessageRepository.update_status` (`data/methods/sent_messages.py`):
select the first row with the given `user_id` and `index`; if found set both
`is_sent` and `is_available_sent` to the given flags and return `True`,
otherwise return `False` with nothing changed. -/
def update_status (db : DB) (uid idx : Int)
    (is_sent is_available_sent : Bool) : Bool × DB :=
  match findFirst (fun m => m.user_id == uid && m.index == idx) db.messages with
  | some _ =>
      let msgs := updateFirst (fun m => m.user_id == uid && m.index == idx)
        (fun m => { m with is_sent := is_sent,
                           is_available_sent := is_available_sent })
        db.messages
      (true, { db with messages := msgs })
  | none => (false, db)

/-- `SentMessageRepository.fetch_pending` (`data/methods/sent_messages.py`):
the WHERE clause `pendingFor`, `ORDER BY sent_at LIMIT 1`.  (The source wraps
the row in `SentMessageSchema.from_orm`, which copies the same field values;
the row itself is returned here.) -/
def fetch_pending (db : DB) (uid now : Int) : Option SentMessageRow :=
  pickMinSentAt (db.messages.filter (pendingFor uid now))

/-- `SentMessageRepository.mark_unavailable` (`data/methods/sent_messages.py`):
select the first row with the given `user_id` and `index`; if found set
`is_available_sent := false` and return `True`, else `False`, unchanged. -/
def mark_unavailable (db : DB) (uid idx : Int) : Bool × DB :=
  match findFirst (fun m => m.user_id == uid && m.index == idx) db.messages with
  | some _ =>
      let msgs := updateFirst (fun m => m.user_id == uid && m.index == idx)
        (fun m => { m with is_available_sent := false }) db.messages
      (true, { db with messages := msgs })
  | none => (false, db)

/-- `SentMessageRepository.update_third_message_time`
(`data/methods/sent_messages.py`): the WHERE clause is
`user_id == schema.user_id, index == 3` — the literal 3, not the schema's
`index` field — and the update writes `sent_at := schema.sent_at`. -/
def update_third_message_time (db : DB) (s : SentMessageSchema) : Bool × DB :=
  match findFirst (fun m => m.user_id == s.user_id && m.index == 3) db.messages with
  | some _ =>
      let msgs := updateFirst (fun m => m.user_id == s.user_id && m.index == 3)
        (fun m => { m with sent_at := s.sent_at }) db.messages
      (true, { db with messages := msgs })
  | none => (false, db)

end SentMessageRepository

/-- A `UserSchema` built as `UserSchema(user_id=uid, status=st)` in
`app/main.py`: pydantic fills `created_at` and `status_updated_at` from their
defaults (a module-import-time `datetime.utcnow()`), both of which
`UserRepository.update_user` skips, so their value is irrelevant and
modelled as 0. -/
def mkUserSchema (uid : Int) (st : String) : UserSchema :=
  { user_id := uid, created_at := 0, status := st, status_updated_at := 0 }

/-- `send_message` (`app/main.py`): attempt delivery through the transport
client (`app.send_message`), modelled by the oracle `sendOk`; on any
exception, update the user's status to `Status.dead.value` and swallow the
exception (it is caught inside this function, so the caller always continues
normally). -/
def send_message (sendOk : Int → String → Bool) (db : DB) (uid : Int)
    (text : String) (now : Int) : DB :=
  if sendOk uid text then db
  else (UserRepository.update_user db (mkUserSchema uid Status.dead) now).2

/-- The body of the per-user `for` loop inside `send_messages_loop`
(`app/main.py`): fetch the pending message; if there is one, attempt
delivery (`send_message` never raises), then unconditionally
`update_status(..., is_sent=True, is_available_sent=True)`, and if the
message's index is 3, unconditionally set the user's status to
`Status.finished.value`. -/
def send_messages_loop_body (sendOk : Int → String → Bool) (db : DB)
    (uid : Int) (now : Int) : DB :=
  match SentMessageRepository.fetch_pending db uid now with
  | none => db
  | some msg =>
      let db1 := send_message sendOk db uid msg.message_text now
      let db2 := (SentMessageRepository.update_status db1 uid msg.index
        true true).2
      if msg.index == 3 then
        (UserRepository.update_user db2 (mkUserSchema uid Status.finished) now).2
      else db2

/-- One iteration of the `while True` dispatch loop in `send_messages_loop`
(`app/main.py`): snapshot the alive users, then run the per-user body over
them in order, threading the store state. -/
def send_messages_tick (sendOk : Int → String → Bool) (db : DB)
    (now : Int) : DB :=
  (UserRepository.get_all_alive db).foldl
    (fun d u => send_messages_loop_body sendOk d u.user_id now) db

/-- `add_initial_messages_for_user` (`app/main.py`): take `now` once, then
for each entry of `MESSAGES` insert a row with that entry's index and text,
`sent_at = now + delay`, `is_available_sent=True`, `is_sent=False`. -/
def add_initial_messages_for_user (db : DB) (uid : Int) (now : Int) : DB :=
  MESSAGES.foldl
    (fun d mc =>
      (SentMessageRepository.add_message d uid mc.text mc.index
        (now + mc.delay) true false).2)
    db

/-- `get_or_add_user_in_db` (`app/main.py`): look the user up; if absent,
`add_user` then `add_initial_messages_for_user`; if present, return it with
no store mutation. -/
def get_or_add_user_in_db (db : DB) (uid : Int) (now : Int) :
    Option UserRow × DB :=
  match UserRepository.get_by_user_id db uid with
  | some u => (some u, db)
  | none =>
      let r := UserRepository.add_user db uid now
      let db2 := add_initial_messages_for_user r.2 uid now
      (r.1, db2)

/-- `handle_trigger_for_user` (`app/main.py`): if any trigger word occurs in
the text, mark the index-2 row unavailable, compute
`event_time = now + MESSAGES[2]["delay"]` (the third entry's delay, 12), then
construct `SentMessageSchema(user_id=uid, index=2, sent_at=event_time)` —
supplying only those three keyword arguments — and pass it to
`update_third_message_time`.  The whole block sits in a
`try/except Exception` that only logs, so a raising step ends the call
normally with the store as the preceding steps left it. -/
def handle_trigger_for_user (db : DB) (uid : Int) (text : String)
    (now : Int) : DB :=
  if TRIGGER_WORDS.any (fun w => strContainsSub text w) then
    let db1 := (SentMessageRepository.mark_unavailable db uid 2).2
    let event_time := now + ((MESSAGES.get? 2).map (fun mc => mc.delay)).getD 0
    match mkSentMessageSchema none (some 2) (some uid) none (some event_time)
        none none now with
    | Except.ok s => (SentMessageRepository.update_third_message_time db1 s).2
    | Except.error _ => db1
  else db

/-- `message_handler` (`app/main.py`): an incoming private text message
(`not message.outgoing`) runs `get_or_add_user_in_db` on the sender; an
outgoing one looks up the chat's user and, if found with status
`Status.alive.value`, runs `handle_trigger_for_user` on the text. -/
def message_handler (db : DB) (from_user_id chat_id : Int) (text : String)
    (outgoing : Bool) (now : Int) : DB :=
  if !outgoing then (get_or_add_user_in_db db from_user_id now).2
  else
    match UserRepository.get_by_user_id db chat_id with
    | some u =>
        if u.status == Status.alive then
          handle_trigger_for_user db u.user_id text now
        else db
    | none => db

/-! Helper lemmas about the select-first / update-first store primitives. -/

theorem findFirst_updateFirst_self (p : α → Bool) (f : α → α)
    (hf : ∀ x, p x = true → p (f x) = true) :
    ∀ l : List α, findFirst p (updateFirst p f l) = (findFirst p l).map f
  | [] => rfl
  | x :: xs => by
      cases hp : p x with
      | true => simp [updateFirst, findFirst, hp, hf x hp]
      | false =>
          simp [updateFirst, findFirst, hp,
            findFirst_updateFirst_self p f hf xs]

theorem findFirst_updateFirst_disjoint (p q : α → Bool) (f : α → α)
    (hq : ∀ x, q x = true → p x = false) (hfq : ∀ x, q (f x) = q x) :
    ∀ l : List α, findFirst q (updateFirst p f l) = findFirst q l
  | [] => rfl
  | x :: xs => by
      cases hp : p x with
      | true =>
          have hqx : q x = false := by
            cases hqx : q x with
            | true => rw [hq x hqx] at hp; exact absurd hp (by simp)
            | false => rfl
          have hqfx : q (f x) = false := by rw [hfq x, hqx]
          simp [updateFirst, findFirst, hp, hqx, hqfx]
      | false =>
          cases hqx : q x with
          | true => simp [updateFirst, findFirst, hp, hqx]
          | false =>
              simp [updateFirst, findFirst, hp, hqx,
                findFirst_updateFirst_disjoint p q f hq hfq xs]

theorem map_updateFirst (p : α → Bool) (f : α → α) (g : α → β)
    (hg : ∀ x, g (f x) = g x) :
    ∀ l : List α, (updateFirst p f l).map g = l.map g
  | [] => rfl
  | x :: xs => by
      cases hp : p x with
      | true => simp [updateFirst, hp, hg x]
      | false => simp [updateFirst, hp, map_updateFirst p f g hg xs]

theorem findFirst_eq_none (p : α → Bool) :
    ∀ l : List α, (findFirst p l = none ↔ ∀ x ∈ l, p x = false)
  | [] => by simp [findFirst]
  | x :: xs => by
      cases hp : p x with
      | true => simp [findFirst, hp]
      | false => simp [findFirst, hp, findFirst_eq_none p xs]

theorem findFirst_append (p : α → Bool) :
    ∀ l1 l2 : List α, findFirst p (l1 ++ l2) =
      (match findFirst p l1 with
       | some x => some x
       | none => findFirst p l2)
  | [], l2 => rfl
  | x :: xs, l2 => by
      cases hp : p x with
      | true => simp [findFirst, hp]
      | false => simp [findFirst, hp, findFirst_append p xs l2]

theorem filter_eq_nil_of_findFirst_none (p : α → Bool) (l : List α)
    (h : findFirst p l = none) : l.filter p = [] := by
  rw [List.filter_eq_nil_iff]
  intro a ha
  simp [(findFirst_eq_none p l).mp h a ha]

theorem pickMinSentAt_eq_none :
    ∀ l : List SentMessageRow, (pickMinSentAt l = none ↔ l = [])
  | [] => by simp [pickMinSentAt]
  | m :: ms => by
      simp only [pickMinSentAt]
      cases hms : pickMinSentAt ms with
      | none => simp
      | some m' => by_cases h : m.sent_at ≤ m'.sent_at <;> simp [h]

theorem pickMinSentAt_mem :
    ∀ l : List SentMessageRow, ∀ m, pickMinSentAt l = some m → m ∈ l
  | [], m => by simp [pickMinSentAt]
  | x :: xs, m => by
      simp only [pickMinSentAt]
      cases hms : pickMinSentAt xs with
      | none => intro h; simp at h; simp [h]
      | some m' =>
          by_cases hle : x.sent_at ≤ m'.sent_at
          · intro h
            simp [hle] at h
            simp [h]
          · intro h
            simp [hle] at h
            have := pickMinSentAt_mem xs m' hms
            subst h
            exact List.mem_cons_of_mem x this

theorem pickMinSentAt_min :
    ∀ l : List SentMessageRow, ∀ m, pickMinSentAt l = some m →
      ∀ x ∈ l, m.sent_at ≤ x.sent_at
  | [], m => by simp [pickMinSentAt]
  | y :: ys, m => by
      simp only [pickMinSentAt]
      cases hms : pickMinSentAt ys with
      | none =>
          intro h
          simp at h
          have hys : ys = [] := (pickMinSentAt_eq_none ys).mp hms
          subst h; subst hys
          simp
      | some m' =>
          by_cases hle : y.sent_at ≤ m'.sent_at
          · intro h
            simp [hle] at h
            intro x hx
            rw [← h]
            rcases List.mem_cons.mp hx with hx' | hx'
            · rw [hx']
            · exact le_trans hle (pickMinSentAt_min ys m' hms x hx')
          · intro h
            simp [hle] at h
            intro x hx
            rw [← h]
            rcases List.mem_cons.mp hx with hx' | hx'
            · rw [hx']; exact le_of_lt (lt_of_not_le hle)
            · exact pickMinSentAt_min ys m' hms x hx'

/-- Observation helper: the first stored row with the given owner and
sequence index — the row that every per-(user, index) repository update
(`update_status`, `mark_unavailable`, `update_third_message_time`) targets. -/
def firstMessageRow (db : DB) (uid idx : Int) : Option SentMessageRow :=
  findFirst (fun m => m.user_id == uid && m.index == idx) db.messages

/-- A transport oracle under which every delivery attempt raises. -/
def sendAlwaysFails : Int → String → Bool := fun _ _ => false

/-- Store with one alive user (id 1) whose index-1 sequence message is due. -/
def dbC1 : DB :=
  ⟨[⟨1, 0, "alive", 0⟩], [⟨100, 1, 1, "Текст1", 6, true, false⟩], 101⟩

/-- Store with one alive user (id 1) whose index-3 sequence message is due. -/
def dbC2 : DB :=
  ⟨[⟨1, 0, "alive", 0⟩], [⟨100, 3, 1, "Текст3", 12, true, false⟩], 101⟩

/-- Store with one alive user (id 1) and the freshly seeded three-message
schedule (onboarded at time 0). -/
def dbC3 : DB :=
  ⟨[⟨1, 0, "alive", 0⟩],
   [⟨100, 1, 1, "Текст1", 6, true, false⟩,
    ⟨101, 2, 1, "Текст2", 8, true, false⟩,
    ⟨102, 3, 1, "Текст3", 12, true, false⟩], 103⟩

/-- C1: the claim (and the loop's own docstring, which says the sent status
is updated after a successful send) requires a message whose delivery failed
to keep isSent=false.  In the code `send_message` catches the transport
exception internally, and `send_messages_loop` then calls
`update_status(..., is_sent=True, is_available_sent=True)` unconditionally,
so the failed message is marked sent anyway.  At the failing input (one
alive user whose index-1 message is due, transport failing) the iteration
ends with the user dead — showing the delivery did fail — and the message's
is_sent flag true, contradicting the claim. -/
theorem C1_failed_send_marks_sent :
    (UserRepository.get_by_user_id
        (send_messages_tick sendAlwaysFails dbC1 100) 1).map
        (fun u => u.status) = some "dead" ∧
    (firstMessageRow (send_messages_tick sendAlwaysFails dbC1 100) 1 1).map
        (fun m => m.is_sent) = some true := by decide

/-- C2: the claim (with the spec, which makes any transport failure terminal:
status dead) requires the contact to be dead after a failed delivery of the
index-3 message as well.  In the code the `if message_to_send.index == 3`
block also runs when the send failed, so the status written by the failure
path ('dead') is immediately overwritten with 'finished': at the failing
input (one alive user whose index-3 message is due, transport failing) the
iteration ends with status 'finished', not 'dead'. -/
theorem C2_failed_third_send_finishes :
    (UserRepository.get_by_user_id
        (send_messages_tick sendAlwaysFails dbC2 100) 1).map
        (fun u => u.status) = some "finished" ∧
    ¬ (UserRepository.get_by_user_id
        (send_messages_tick sendAlwaysFails dbC2 100) 1).map
        (fun u => u.status) = some "dead" := by decide

/-- C3: the claim requires a matching trigger to set the index-3 row's
sendAt to the trigger time plus delay 12.  In the code the argument
`SentMessageSchema(user_id=..., index=2, sent_at=event_time)` omits the
required field sent_messages_id, so pydantic raises ValidationError before
`update_third_message_time` is reached; the surrounding except block logs
and returns.  At the failing input (alive user 1 seeded at time 0, trigger
word received at time 7) the index-2 row is marked unavailable but the
index-3 row's sendAt stays 12 instead of becoming 7 + 12 = 19. -/
theorem C3_trigger_never_reschedules :
    (firstMessageRow (handle_trigger_for_user dbC3 1 "прекрасно" 7) 1 2).map
        (fun m => m.is_available_sent) = some false ∧
    (firstMessageRow (handle_trigger_for_user dbC3 1 "прекрасно" 7) 1 3).map
        (fun m => m.sent_at) = some 12 ∧
    (12 : Int) ≠ 7 + 12 := by decide

/-- An eligible index-3 row stored (returned by the store) ahead of an
eligible index-2 row with the same sendAt. -/
def rC4a : SentMessageRow := ⟨7, 3, 1, "Текст3", 10, true, false⟩

/-- The tied lower-index row stored after `rC4a`. -/
def rC4b : SentMessageRow := ⟨8, 2, 1, "Текст2", 10, true, false⟩

/-- Store holding `rC4a` before `rC4b`. -/
def dbC4 : DB := ⟨[⟨1, 0, "alive", 0⟩], [rC4a, rC4b], 9⟩

/-- C4 counterexample: the query behind `fetch_pending` orders by sent_at
only (no sequenceIndex tie-break), so with two eligible rows tied on the
minimal sendAt 10 — the index-3 row enumerated first, the index-2 row second
— it returns the index-3 row, not the row with the lowest sequenceIndex. -/
theorem C4_no_index_tiebreak :
    rC4b ∈ dbC4.messages ∧ pendingFor 1 10 rC4b = true ∧ rC4b.index = 2 ∧
    rC4b.sent_at = 10 ∧
    (SentMessageRepository.fetch_pending dbC4 1 10).map (fun m => m.sent_at)
      = some 10 ∧
    (SentMessageRepository.fetch_pending dbC4 1 10).map (fun m => m.index)
      = some 3 ∧
    (3 : Int) ≠ 2 := by decide

/-- C4 amended: `fetch_pending` returns `none` exactly when no row of the
contact is available, unsent and due; otherwise it returns a stored row
satisfying all three conditions whose sendAt is minimal among such rows.
Rows tied on the minimal sendAt are resolved by the store's enumeration
order (the query orders by sendAt alone), not by lowest sequenceIndex. -/
theorem C4_fetch_pending_spec (db : DB) (uid now : Int) :
    (SentMessageRepository.fetch_pending db uid now = none ↔
      ∀ m ∈ db.messages, pendingFor uid now m = false) ∧
    ∀ m, SentMessageRepository.fetch_pending db uid now = some m →
      m ∈ db.messages ∧ pendingFor uid now m = true ∧
      db.messages.all
        (fun m2 => !(pendingFor uid now m2)
          || decide (m.sent_at ≤ m2.sent_at)) = true := by
  constructor
  · unfold SentMessageRepository.fetch_pending
    rw [pickMinSentAt_eq_none, List.filter_eq_nil_iff]
    simp
  · intro m hm
    unfold SentMessageRepository.fetch_pending at hm
    have hmem := pickMinSentAt_mem _ m hm
    have hmin := pickMinSentAt_min _ m hm
    rcases List.mem_filter.mp hmem with ⟨hmm, hpm⟩
    refine ⟨hmm, hpm, ?_⟩
    rw [List.all_eq_true]
    intro m2 hm2
    cases hpm2 : pendingFor uid now m2 with
    | false => simp
    | true =>
        have : m2 ∈ db.messages.filter (pendingFor uid now) :=
          List.mem_filter.mpr ⟨hm2, hpm2⟩
        simp [hmin m2 this]

/-- The single eligible row of the C4 witness store. -/
def rW4 : SentMessageRow := ⟨1, 1, 1, "Текст1", 5, true, false⟩

/-- Witness store for the amended C4 theorem. -/
def dbW4 : DB := ⟨[⟨1, 0, "alive", 0⟩], [rW4], 2⟩

/-- Witness for the amended C4 theorem at a concrete store. -/
theorem C4_fetch_pending_spec_witness :
    rW4 ∈ dbW4.messages ∧ pendingFor 1 10 rW4 = true ∧
    dbW4.messages.all
      (fun m2 => !(pendingFor 1 10 m2)
        || decide (rW4.sent_at ≤ m2.sent_at)) = true :=
  (C4_fetch_pending_spec dbW4 1 10).2 rW4 (by decide)

/-- Seeding a contact with no prior rows stores exactly the three configured
rows, in sequence order, with consecutive surrogate keys. -/
theorem add_initial_filter (db : DB) (uid now : Int)
    (h : db.messages.filter (fun m => m.user_id == uid) = []) :
    (add_initial_messages_for_user db uid now).messages.filter
        (fun m => m.user_id == uid) =
      [⟨db.nextId, 1, uid, "Текст1", now + 6, true, false⟩,
       ⟨db.nextId + 1, 2, uid, "Текст2", now + 8, true, false⟩,
       ⟨db.nextId + 2, 3, uid, "Текст3", now + 12, true, false⟩] := by
  simp [add_initial_messages_for_user, MESSAGES,
    SentMessageRepository.add_message, List.filter_append, h]
  omega

/-- C5: seeding a newly onboarded contact creates exactly 3 rows, with
sequence indices 1, 2, 3, each available and unsent, each scheduled at the
onboarding time plus that index's configured delay, and those three send
times are strictly increasing. -/
theorem C5_seed_creates_schedule (db : DB) (uid now : Int)
    (h : db.messages.filter (fun m => m.user_id == uid) = []) :
    ((add_initial_messages_for_user db uid now).messages.filter
        (fun m => m.user_id == uid)).map
        (fun m => (m.index, m.sent_at, m.is_available_sent, m.is_sent))
      = [(1, now + 6, true, false), (2, now + 8, true, false),
         (3, now + 12, true, false)] ∧
    ((add_initial_messages_for_user db uid now).messages.filter
        (fun m => m.user_id == uid)).length = 3 ∧
    now + 6 < now + 8 ∧ now + 8 < now + 12 := by
  rw [add_initial_filter db uid now h]
  refine ⟨rfl, rfl, by omega, by omega⟩

/-- Empty witness store (also the start state of the C6 witness). -/
def dbW5 : DB := ⟨[], [], 1⟩

/-- Witness for the C5 theorem at the empty store. -/
theorem C5_seed_creates_schedule_witness :
    ((add_initial_messages_for_user dbW5 1 0).messages.filter
        (fun m => m.user_id == 1)).map
        (fun m => (m.index, m.sent_at, m.is_available_sent, m.is_sent))
      = [(1, 0 + 6, true, false), (2, 0 + 8, true, false),
         (3, 0 + 12, true, false)] ∧
    ((add_initial_messages_for_user dbW5 1 0).messages.filter
        (fun m => m.user_id == 1)).length = 3 ∧
    (0 : Int) + 6 < 0 + 8 ∧ (0 : Int) + 8 < 0 + 12 :=
  C5_seed_creates_schedule dbW5 1 0 (by decide)

/-- C6: the inbound incoming-message path is idempotent — from a store that
has never seen the contact, running `message_handler` on an incoming message
twice leaves exactly one user row and exactly 3 scheduled rows for the
contact, and the second run returns the store unchanged. -/
theorem C6_onboarding_idempotent (db : DB) (uid : Int) (text : String)
    (now1 now2 : Int)
    (h1 : UserRepository.get_by_user_id db uid = none)
    (h2 : db.messages.filter (fun m => m.user_id == uid) = []) :
    message_handler (message_handler db uid uid text false now1) uid uid text
        false now2
      = message_handler db uid uid text false now1 ∧
    ((message_handler db uid uid text false now1).users.filter
        (fun u => u.user_id == uid)).length = 1 ∧
    ((message_handler db uid uid text false now1).messages.filter
        (fun m => m.user_id == uid)).length = 3 := by
  have hany : db.users.any (fun u => u.user_id == uid) = false := by
    rw [List.any_eq_false]
    intro x hx
    simp [(findFirst_eq_none _ db.users).mp h1 x hx]
  have husers : ∀ (d : DB) (u n : Int),
      (add_initial_messages_for_user d u n).users = d.users := by
    intro d u n
    rfl
  have hdb1 : message_handler db uid uid text false now1
      = add_initial_messages_for_user
          { db with users := db.users ++ [⟨uid, now1, "alive", now1⟩] }
          uid now1 := by
    simp [message_handler, get_or_add_user_in_db, h1,
      UserRepository.add_user, hany]
  have h1f : findFirst (fun u => u.user_id == uid) db.users = none := h1
  have hget : UserRepository.get_by_user_id
      (message_handler db uid uid text false now1) uid
      = some (UserRow.mk uid now1 "alive" now1) := by
    rw [hdb1]
    show findFirst (fun u => u.user_id == uid)
        (db.users ++ [UserRow.mk uid now1 "alive" now1]) = _
    rw [findFirst_append, h1f]
    simp [findFirst]
  refine ⟨?_, ?_, ?_⟩
  · generalize hD : message_handler db uid uid text false now1 = d1 at hget ⊢
    simp [message_handler, get_or_add_user_in_db, hget]
  · rw [hdb1, husers]
    show ((db.users ++ [UserRow.mk uid now1 "alive" now1]).filter
        (fun u => u.user_id == uid)).length = 1
    rw [List.filter_append, filter_eq_nil_of_findFirst_none _ _ h1f]
    simp
  · rw [hdb1]
    rw [add_initial_filter
      { users := db.users ++ [UserRow.mk uid now1 "alive" now1],
        messages := db.messages, nextId := db.nextId } uid now1 h2]
    rfl

/-- Witness for the C6 theorem: onboarding user 1 twice from the empty
store. -/
theorem C6_onboarding_idempotent_witness :
    message_handler (message_handler dbW5 1 1 "hi" false 0) 1 1 "hi" false 5
      = message_handler dbW5 1 1 "hi" false 0 ∧
    ((message_handler dbW5 1 1 "hi" false 0).users.filter
        (fun u => u.user_id == 1)).length = 1 ∧
    ((message_handler dbW5 1 1 "hi" false 0).messages.filter
        (fun m => m.user_id == 1)).length = 3 :=
  C6_onboarding_idempotent dbW5 1 "hi" 0 5 (by decide) (by decide)

/-- C7: `update_status(uid, idx, is_sent=True, is_available_sent=True)` on a
store holding a row for that contact and index returns True and rewrites
that row with both isSent and isAvailable set to true; when no such row
exists it returns False and leaves the store unchanged. -/
theorem C7_update_status_sets_both (db : DB) (uid idx : Int) :
    ((firstMessageRow db uid idx).isSome = true →
      (SentMessageRepository.update_status db uid idx true true).1 = true ∧
      firstMessageRow
          (SentMessageRepository.update_status db uid idx true true).2 uid idx
        = (firstMessageRow db uid idx).map
            (fun m => { m with is_sent := true,
                               is_available_sent := true })) ∧
    (firstMessageRow db uid idx = none →
      SentMessageRepository.update_status db uid idx true true
        = (false, db)) := by
  unfold SentMessageRepository.update_status firstMessageRow
  cases hfind : findFirst (fun m => m.user_id == uid && m.index == idx)
      db.messages with
  | none =>
      constructor
      · intro hs
        simp at hs
      · intro _
        rfl
  | some m0 =>
      constructor
      · intro _
        refine ⟨rfl, ?_⟩
        rw [findFirst_updateFirst_self
          (fun m => m.user_id == uid && m.index == idx)
          (fun m => { m with is_sent := true, is_available_sent := true })
          (fun x hx => hx) db.messages, hfind]
      · intro hnone
        exact absurd hnone (by simp)

/-- Witness store for the C7 theorem. -/
def dbW7 : DB := ⟨[⟨1, 0, "alive", 0⟩], [⟨5, 2, 1, "Текст2", 8, true, false⟩], 6⟩

/-- Witness for the C7 theorem: updating the stored (user 1, index 2) row. -/
theorem C7_update_status_sets_both_witness :
    (SentMessageRepository.update_status dbW7 1 2 true true).1 = true ∧
    firstMessageRow
        (SentMessageRepository.update_status dbW7 1 2 true true).2 1 2
      = (firstMessageRow dbW7 1 2).map
          (fun m => { m with is_sent := true, is_available_sent := true }) :=
  (C7_update_status_sets_both dbW7 1 2).1 (by decide)

/-- Store whose single user (id 1) has status 'alive', last updated at
time 4. -/
def dbC8 : DB := ⟨[⟨1, 11, "alive", 4⟩], [], 1⟩

/-- An update payload carrying the already-stored status 'alive'. -/
def sC8 : UserSchema := ⟨1, 777, "alive", 5⟩

/-- C8 counterexample: the claim says `update_user` refreshes
statusUpdatedAt on each status write.  For a payload whose status equals the
stored status the ORM emits no UPDATE (the setattr loop assigns only
user_id — to its matched value — and status, so nothing differs at flush)
and the onupdate hook never fires: at commit time 9 the existing contact's
status_updated_at stays 4. -/
theorem C8_no_refresh_on_equal_status :
    (UserRepository.get_by_user_id dbC8 sC8.user_id).isSome = true ∧
    UserRepository.update_user dbC8 sC8 9
      = (UserRepository.get_by_user_id dbC8 sC8.user_id, dbC8) ∧
    (UserRepository.get_by_user_id (UserRepository.update_user dbC8 sC8 9).2
        sC8.user_id).map (fun u => u.status_updated_at) = some 4 ∧
    (4 : Int) ≠ 9 := by decide

/-- C8 amended: `update_user` never rewrites any stored created_at and
returns None with the store unchanged for an unknown contact.  For an
existing contact, a payload whose status differs from the stored one
refreshes status_updated_at to the commit time and writes the new status;
a payload carrying the already-stored status emits no UPDATE (so the
onupdate hook does not fire) and returns the row with the store
unchanged. -/
theorem C8_update_user_frame (db : DB) (s : UserSchema) (now : Int) :
    ((UserRepository.update_user db s now).2.users.map (fun u => u.created_at)
        = db.users.map (fun u => u.created_at)) ∧
    (∀ u0, UserRepository.get_by_user_id db s.user_id = some u0 →
      (u0.status = s.status →
        UserRepository.update_user db s now = (some u0, db)) ∧
      (u0.status ≠ s.status →
        (UserRepository.get_by_user_id (UserRepository.update_user db s now).2
            s.user_id).map (fun u => u.status_updated_at) = some now ∧
        (UserRepository.get_by_user_id (UserRepository.update_user db s now).2
            s.user_id).map (fun u => u.status) = some s.status)) ∧
    (UserRepository.get_by_user_id db s.user_id = none →
      UserRepository.update_user db s now = (none, db)) := by
  unfold UserRepository.update_user UserRepository.get_by_user_id
  cases hfind : findFirst (fun u => u.user_id == s.user_id) db.users with
  | none =>
      refine ⟨rfl, ?_, fun _ => rfl⟩
      intro u0 h0
      exact absurd h0 (by simp)
  | some u0 =>
      cases hst : u0.status == s.status with
      | true =>
          have hst' : u0.status = s.status := by simpa using hst
          refine ⟨by simp [hst], ?_, ?_⟩
          · intro u1 h1
            have hu : u0 = u1 := by simpa using h1
            subst hu
            constructor
            · intro _
              simp [hst]
            · intro hne
              exact absurd hst' hne
          · intro h0
            exact absurd h0 (by simp)
      | false =>
          have hne' : ¬ u0.status = s.status := by simpa using hst
          refine ⟨?_, ?_, ?_⟩
          · simp only [hst]
            show (updateFirst (fun u => u.user_id == s.user_id)
                (fun u => { u with user_id := s.user_id, status := s.status,
                                   status_updated_at := now }) db.users).map
                (fun u => u.created_at)
              = db.users.map (fun u => u.created_at)
            exact map_updateFirst (fun u => u.user_id == s.user_id)
              (fun u => { u with user_id := s.user_id, status := s.status,
                                 status_updated_at := now })
              (fun u => u.created_at) (fun x => rfl) db.users
          · intro u1 h1
            constructor
            · intro hseq
              have hu : u0 = u1 := by simpa using h1
              exact absurd (hu ▸ hseq) hne'
            · intro _
              simp only [hst]
              constructor
              · show (findFirst (fun u => u.user_id == s.user_id)
                    (updateFirst (fun u => u.user_id == s.user_id)
                      (fun u => { u with user_id := s.user_id,
                                         status := s.status,
                                         status_updated_at := now })
                      db.users)).map (fun u => u.status_updated_at)
                  = some now
                rw [findFirst_updateFirst_self
                  (fun u => u.user_id == s.user_id)
                  (fun u => { u with user_id := s.user_id, status := s.status,
                                     status_updated_at := now })
                  (fun x _ => by simp) db.users, hfind]
                rfl
              · show (findFirst (fun u => u.user_id == s.user_id)
                    (updateFirst (fun u => u.user_id == s.user_id)
                      (fun u => { u with user_id := s.user_id,
                                         status := s.status,
                                         status_updated_at := now })
                      db.users)).map (fun u => u.status)
                  = some s.status
                rw [findFirst_updateFirst_self
                  (fun u => u.user_id == s.user_id)
                  (fun u => { u with user_id := s.user_id, status := s.status,
                                     status_updated_at := now })
                  (fun x _ => by simp) db.users, hfind]
                rfl
          · intro hnone
            exact absurd hnone (by simp)

/-- Witness store for the amended C8 theorem. -/
def dbW8 : DB := ⟨[⟨1, 11, "alive", 0⟩], [], 1⟩

/-- The schema `UserSchema(user_id=1, status='dead')` of the C8 witness; its
created_at value 777 demonstrates the field is not written through, and its
status differs from the stored 'alive', so the UPDATE is emitted. -/
def sW8 : UserSchema := ⟨1, 777, "dead", 5⟩

/-- Witness for the amended C8 theorem at a concrete store. -/
theorem C8_update_user_frame_witness :
    ((UserRepository.update_user dbW8 sW8 9).2.users.map
        (fun u => u.created_at) = dbW8.users.map (fun u => u.created_at)) ∧
    ((UserRepository.get_by_user_id (UserRepository.update_user dbW8 sW8 9).2
        sW8.user_id).map (fun u => u.status_updated_at) = some 9 ∧
     (UserRepository.get_by_user_id (UserRepository.update_user dbW8 sW8 9).2
        sW8.user_id).map (fun u => u.status) = some sW8.status) :=
  ⟨(C8_update_user_frame dbW8 sW8 9).1,
   ((C8_update_user_frame dbW8 sW8 9).2.1 (UserRow.mk 1 11 "alive" 0)
      (by decide)).2 (by decide)⟩

/-- C9: `update_third_message_time` selects by the caller's user_id and the
literal index 3 — the schema's index field is ignored (replacing it by any
value, e.g. the 2 that `handle_trigger_for_user` passes, leaves the result
unchanged); the stored (user, 3) row gets its sent_at set to the schema's
sent_at, while the (user, 2) row is untouched. -/
theorem C9_reschedule_targets_third_row (db : DB) (s : SentMessageSchema)
    (i : Int) :
    SentMessageRepository.update_third_message_time db { s with index := i }
      = SentMessageRepository.update_third_message_time db s ∧
    firstMessageRow
        (SentMessageRepository.update_third_message_time db s).2 s.user_id 3
      = (firstMessageRow db s.user_id 3).map
          (fun m => { m with sent_at := s.sent_at }) ∧
    firstMessageRow
        (SentMessageRepository.update_third_message_time db s).2 s.user_id 2
      = firstMessageRow db s.user_id 2 := by
  refine ⟨rfl, ?_, ?_⟩
  · unfold SentMessageRepository.update_third_message_time firstMessageRow
    cases hfind : findFirst (fun m => m.user_id == s.user_id && m.index == 3)
        db.messages with
    | none => simp [hfind]
    | some m0 =>
        rw [findFirst_updateFirst_self
          (fun m => m.user_id == s.user_id && m.index == 3)
          (fun m => { m with sent_at := s.sent_at })
          (fun x hx => hx) db.messages, hfind]
  · unfold SentMessageRepository.update_third_message_time firstMessageRow
    cases hfind : findFirst (fun m => m.user_id == s.user_id && m.index == 3)
        db.messages with
    | none => rfl
    | some m0 =>
        exact findFirst_updateFirst_disjoint
          (fun m => m.user_id == s.user_id && m.index == 3)
          (fun m => m.user_id == s.user_id && m.index == 2)
          (fun m => { m with sent_at := s.sent_at })
          (fun x hx => by
            simp only [Bool.and_eq_true, beq_iff_eq] at hx
            simp [hx.2])
          (fun x => rfl) db.messages

/-- C10: trigger handling is not atomic.  Whenever the text matches a
trigger word, the step after `mark_unavailable` — constructing
`SentMessageSchema(user_id=..., index=2, sent_at=...)` — raises a pydantic
ValidationError (the required field sent_messages_id is not supplied), the
surrounding except block swallows it (the embedding returns a store
normally instead of propagating), and the call's entire effect is
`mark_unavailable(uid, 2)`: the (uid, 2) row is left with
is_available_sent=false while every (uid, 3) row — in particular its
sent_at — is unchanged. -/
theorem C10_trigger_not_atomic (db : DB) (uid : Int) (text : String)
    (now : Int)
    (h : TRIGGER_WORDS.any (fun w => strContainsSub text w) = true) :
    handle_trigger_for_user db uid text now
      = (SentMessageRepository.mark_unavailable db uid 2).2 ∧
    (firstMessageRow (handle_trigger_for_user db uid text now) uid 2).map
        (fun m => m.is_available_sent)
      = (firstMessageRow db uid 2).map (fun _ => false) ∧
    firstMessageRow (handle_trigger_for_user db uid text now) uid 3
      = firstMessageRow db uid 3 := by
  have heq : handle_trigger_for_user db uid text now
      = (SentMessageRepository.mark_unavailable db uid 2).2 := by
    simp [handle_trigger_for_user, h, mkSentMessageSchema]
  refine ⟨heq, ?_, ?_⟩
  · rw [heq]
    unfold SentMessageRepository.mark_unavailable firstMessageRow
    cases hfind : findFirst (fun m => m.user_id == uid && m.index == 2)
        db.messages with
    | none => simp [hfind]
    | some m0 =>
        rw [findFirst_updateFirst_self
          (fun m => m.user_id == uid && m.index == 2)
          (fun m => { m with is_available_sent := false })
          (fun x hx => hx) db.messages, hfind]
        rfl
  · rw [heq]
    unfold SentMessageRepository.mark_unavailable firstMessageRow
    cases hfind : findFirst (fun m => m.user_id == uid && m.index == 2)
        db.messages with
    | none => rfl
    | some m0 =>
        exact findFirst_updateFirst_disjoint
          (fun m => m.user_id == uid && m.index == 2)
          (fun m => m.user_id == uid && m.index == 3)
          (fun m => { m with is_available_sent := false })
          (fun x hx => by
            simp only [Bool.and_eq_true, beq_iff_eq] at hx
            simp [hx.2])
          (fun x => rfl) db.messages

/-- Witness for the C10 theorem: the second trigger word received by the
seeded contact of `dbC3` at time 20. -/
theorem C10_trigger_not_atomic_witness :
    handle_trigger_for_user dbC3 1 "ожидать" 20
      = (SentMessageRepository.mark_unavailable dbC3 1 2).2 ∧
    (firstMessageRow (handle_trigger_for_user dbC3 1 "ожидать" 20) 1 2).map
        (fun m => m.is_available_sent)
      = (firstMessageRow dbC3 1 2).map (fun _ => false) ∧
    firstMessageRow (handle_trigger_for_user dbC3 1 "ожидать" 20) 1 3
      = firstMessageRow dbC3 1 3 :=
  C10_trigger_not_atomic dbC3 1 "ожидать" 20 (by decide)
